import Mathlib

/-!
Verification development for the repository's browser scripts
(`static/app.js` and `static/map.js`): a shallow embedding of the
HTML-escaping helper, the popup construction, the public-map and
picker-map initializers, and the auto-hide banner helper, together
with theorems about them.

Strings are modelled by Lean `String` (a list of characters); the
mapping library's view operations are modelled as an explicit trace of
view commands; JavaScript numbers are modelled as rationals extended
with NaN and the two infinities so that `typeof x === "number"` is a
constructor test.
-/

/-- The apostrophe character `'` (code point 39), written via `Char.ofNat`. -/
def aposChar : Char := Char.ofNat 39

/-- Concatenation of a list of lists (used to model string building). -/
def catLists {α : Type} : List (List α) → List α
  | [] => []
  | a :: r => a ++ catLists r

/-- Per-character translation of `escapeHtml`'s regex replacement table:
`& < > " '` become their HTML entities, every other character is kept. -/
def escapeCharL (c : Char) : List Char :=
  if c = '&' then "&amp;".data
  else if c = '<' then "&lt;".data
  else if c = '>' then "&gt;".data
  else if c = '"' then "&quot;".data
  else if c = aposChar then "&#039;".data
  else [c]

/-- List-of-characters form of `escapeHtml`: the global single-character
regex replace of `map.js` maps each character independently. -/
def escapeHtmlL (l : List Char) : List Char :=
  catLists (l.map escapeCharL)

/-- Function `escapeHtml` from `map.js`:
`String(str).replace(/[&<>"']/g, c => table[c])`.
The input is taken after the `String(...)` coercion, i.e. as the string
representation of the JavaScript value. -/
def escapeHtml (s : String) : String :=
  ⟨escapeHtmlL s.data⟩

/-- Whether `c` is one of the four characters that must never appear at
all in escaped output (`< > " '`; `&` is allowed only as an entity head). -/
def rawForbidden (c : Char) : Bool :=
  c = '<' || c = '>' || c = '"' || c = aposChar

/-- Decidable prefix test on character lists. -/
def pfxOf : List Char → List Char → Bool
  | [], _ => true
  | _ :: _, [] => false
  | a :: as, b :: bs => (a = b) && pfxOf as bs

/-- Whether the character list starts with the body of one of the five
entities produced by `escapeHtml` (the part after the `&`). -/
def entityBodyPfx (l : List Char) : Bool :=
  pfxOf "amp;".data l || pfxOf "lt;".data l ||
  pfxOf "gt;".data l || pfxOf "quot;".data l ||
  pfxOf "#039;".data l

/-- Predicate `noStray l` holds when `l` contains no raw `< > " '` at all and every
`&` in it starts one of the five entities produced by `escapeHtml`. -/
def noStray : List Char → Bool
  | [] => true
  | c :: t =>
    if rawForbidden c then false
    else if c = '&' then entityBodyPfx t && noStray t
    else noStray t

/-- Decoder for the five entities emitted by `escapeHtml`; any other
character is passed through unchanged. -/
def unescapeHtmlL (l : List Char) : List Char :=
  match l with
  | [] => []
  | c :: t =>
    if c = '&' then
      if pfxOf "amp;".data t then '&' :: unescapeHtmlL (t.drop 4)
      else if pfxOf "lt;".data t then '<' :: unescapeHtmlL (t.drop 3)
      else if pfxOf "gt;".data t then '>' :: unescapeHtmlL (t.drop 3)
      else if pfxOf "quot;".data t then '"' :: unescapeHtmlL (t.drop 5)
      else if pfxOf "#039;".data t then aposChar :: unescapeHtmlL (t.drop 5)
      else c :: unescapeHtmlL t
    else c :: unescapeHtmlL t
termination_by l.length
decreasing_by
  all_goals simp [List.length_drop]
  all_goals omega

/-- String wrapper for `unescapeHtmlL`. -/
def unescapeHtml (s : String) : String :=
  ⟨unescapeHtmlL s.data⟩

/-- Whether `c` is one of the five characters replaced by `escapeHtml`. -/
def isReserved5 (c : Char) : Bool :=
  c = '&' || c = '<' || c = '>' || c = '"' || c = aposChar

lemma notReserved5 (c : Char) (h : isReserved5 c = false) :
    ¬ c = '&' ∧ ¬ c = '<' ∧ ¬ c = '>' ∧ ¬ c = '"' ∧ ¬ c = aposChar := by
  simp only [isReserved5, Bool.or_eq_false_iff, decide_eq_false_iff_not] at h
  exact ⟨h.1.1.1.1, h.1.1.1.2, h.1.1.2, h.1.2, h.2⟩

lemma escapeCharL_self (c : Char) (h : isReserved5 c = false) :
    escapeCharL c = [c] := by
  obtain ⟨h1, h2, h3, h4, h5⟩ := notReserved5 c h
  simp [escapeCharL, h1, h2, h3, h4, h5]

lemma noStray_escape (l : List Char) : noStray (escapeHtmlL l) = true := by
  induction l with
  | nil => rfl
  | cons c t ih =>
    show noStray (escapeCharL c ++ escapeHtmlL t) = true
    by_cases h : isReserved5 c = true
    · simp only [isReserved5, Bool.or_eq_true, decide_eq_true_eq] at h
      rcases h with ((((h | h) | h) | h) | h) <;> subst h <;>
        simp [escapeCharL, noStray, rawForbidden, entityBodyPfx, aposChar,
          pfxOf, ih]
    · rw [escapeCharL_self c (by simpa using h)]
      obtain ⟨h1, h2, h3, h4, h5⟩ := notReserved5 c (by simpa using h)
      simp [noStray, rawForbidden, h1, h2, h3, h4, h5, ih]

lemma pfxOf_self_append (p x : List Char) :
    pfxOf p (p ++ x) = true := by
  induction p with
  | nil => rfl
  | cons a r ih => simp [pfxOf, ih]

lemma unescape_cons_normal (c : Char) (t : List Char) (h : ¬ c = '&') :
    unescapeHtmlL (c :: t) = c :: unescapeHtmlL t := by
  rw [unescapeHtmlL.eq_def]
  simp [h]

lemma unescape_escape (l : List Char) : unescapeHtmlL (escapeHtmlL l) = l := by
  induction l with
  | nil =>
    show unescapeHtmlL [] = []
    rw [unescapeHtmlL.eq_def]
  | cons c t ih =>
    show unescapeHtmlL (escapeCharL c ++ escapeHtmlL t) = c :: t
    by_cases h : isReserved5 c = true
    · simp only [isReserved5, Bool.or_eq_true, decide_eq_true_eq] at h
      rcases h with ((((h | h) | h) | h) | h) <;> subst h <;>
        · rw [unescapeHtmlL.eq_def]
          simp [escapeCharL, pfxOf, pfxOf_self_append, aposChar, ih]
    · rw [escapeCharL_self c (by simpa using h)]
      obtain ⟨h1, _, _, _, _⟩ := notReserved5 c (by simpa using h)
      rw [List.cons_append, List.nil_append, unescape_cons_normal c _ h1, ih]

lemma escape_id_of_clean (l : List Char) (h : ∀ c ∈ l, isReserved5 c = false) :
    escapeHtmlL l = l := by
  induction l with
  | nil => rfl
  | cons c t ih =>
    show escapeCharL c ++ escapeHtmlL t = c :: t
    rw [escapeCharL_self c (h c (by simp)), ih (fun d hd => h d (by simp [hd]))]
    rfl

/-- Claim C2: the escaping function maps its input (taken after coercion to
its string representation) character by character: each of the five
reserved characters `& < > " '` becomes its HTML entity, so the result
contains no raw `< > " '` and every `&` only as an entity head, decoding
the five entities recovers the input exactly, and an input containing
none of the five characters is returned unaltered. -/
theorem escapeHtml_contract (s : String) :
    noStray (escapeHtml s).data = true ∧
    unescapeHtml (escapeHtml s) = s ∧
    ((∀ c ∈ s.data, isReserved5 c = false) → escapeHtml s = s) := by
  refine ⟨noStray_escape s.data, ?_, fun h => ?_⟩
  · show String.mk (unescapeHtmlL (escapeHtmlL s.data)) = s
    rw [unescape_escape]
  · show String.mk (escapeHtmlL s.data) = s
    rw [escape_id_of_clean s.data h]

/-- Witness for `escapeHtml_contract`: the contract evaluated at
`"<script>"` (escaping leaves no reserved character unescaped, decoding
recovers the input) and at `"abc"` (unaltered). -/
theorem escapeHtml_contract_witness :
    noStray (escapeHtml "<script>").data = true ∧
    unescapeHtml (escapeHtml "<script>") = "<script>" ∧
    escapeHtml "abc" = "abc" :=
  ⟨(escapeHtml_contract "<script>").1, (escapeHtml_contract "<script>").2.1,
    (escapeHtml_contract "abc").2.2 (by decide)⟩

/-- JavaScript numbers: a rational (standing for a finite double) or one
of the special values `NaN`, `Infinity`, `-Infinity`.  All of them have
`typeof === "number"`. -/
inductive JSNumber : Type
  | finite (q : ℚ)
  | nan
  | posInf
  | negInf
deriving DecidableEq

/-- The JavaScript values a marker descriptor field may hold. -/
inductive JSVal : Type
  | num (n : JSNumber)
  | str (s : String)
  | boolean (b : Bool)
  | undef
  | nullV
deriving DecidableEq

/-- Test `typeof v === "number"`: true exactly for the `num` constructor,
including NaN and the infinities. -/
def JSVal.isNum : JSVal → Bool
  | .num _ => true
  | _ => false

/-- The number held by a value of number type (`NaN` otherwise; only
used on values that passed `isNum`). -/
def JSVal.toNum : JSVal → JSNumber
  | .num n => n
  | _ => .nan

/-- A marker descriptor of `initPublicMap`: `lat`/`lng` are arbitrary
JavaScript values, the four text fields are either absent (`none`) or a
string. -/
structure MarkerDesc where
  lat : JSVal
  lng : JSVal
  name : Option String := none
  route : Option String := none
  maps_url : Option String := none
  phone_whatsapp : Option String := none
deriving DecidableEq

/-- JavaScript truthiness of an optional string field: `undefined` and
the empty string are falsy. -/
def truthy : Option String → Bool
  | none => false
  | some s => s ≠ ""

/-- Defaulting `x || d` on an optional string field. -/
def jsOr (o : Option String) (d : String) : String :=
  if truthy o then o.getD "" else d

/-- One hexadecimal digit, upper case (as produced by
`encodeURIComponent`). -/
def hexUpper (n : ℕ) : Char :=
  if n < 10 then Char.ofNat (48 + n) else Char.ofNat (55 + n)

/-- The `%XX` percent-encoding of one byte. -/
def pctByte (b : ℕ) : List Char :=
  ['%', hexUpper (b / 16), hexUpper (b % 16)]

/-- UTF-8 bytes of a code point. -/
def utf8Bytes (n : ℕ) : List ℕ :=
  if n < 128 then [n]
  else if n < 2048 then [192 + n / 64, 128 + n % 64]
  else if n < 65536 then [224 + n / 4096, 128 + n / 64 % 64, 128 + n % 64]
  else [240 + n / 262144, 128 + n / 4096 % 64, 128 + n / 64 % 64, 128 + n % 64]

/-- Characters `encodeURIComponent` leaves unencoded:
ASCII letters, digits, and `- _ . ! ~ * ' ( )`. -/
def uriUnreserved (c : Char) : Bool :=
  c.isAlpha || c.isDigit || c = '-' || c = '_' || c = '.' || c = '!' ||
  c = '~' || c = '*' || c = aposChar || c = '(' || c = ')'

/-- JavaScript `encodeURIComponent`: unreserved characters are kept,
every other character is UTF-8 percent-encoded. -/
def encodeURIComponent (s : String) : String :=
  ⟨catLists (s.data.map (fun c =>
    if uriUnreserved c then [c] else catLists ((utf8Bytes c.toNat).map pctByte)))⟩

/-- JavaScript `String.prototype.replace` with a string pattern: only the
first occurrence of `pat` is replaced by `rep`. -/
def replaceFirstAux (pat rep l : List Char) : List Char :=
  match l with
  | [] => if pfxOf pat [] then rep else []
  | c :: t => if pfxOf pat l then rep ++ l.drop pat.length
              else c :: replaceFirstAux pat rep t

/-- String wrapper for `replaceFirstAux`; models `s.replace(pat, rep)`
with a string (non-regex) pattern. -/
def replaceFirst (pat rep s : String) : String :=
  ⟨replaceFirstAux pat.data rep.data s.data⟩

/-- The popup HTML fragment built by `initPublicMap` for one marker
descriptor, transcribing the template literal of `map.js` (lines
123-142) with its exact whitespace; `${...}` interpolations become
string concatenation, and the two conditional interpolations become
`if`s on JavaScript truthiness. -/
def popupHtml (m : MarkerDesc) : String :=
  "\n        <div style=\"min-width:220px\">\n          <div style=\"font-weight:700\">"
  ++ escapeHtml (jsOr m.name "Negocio")
  ++ "</div>\n          <div style=\"font-size:12px;color:#64748b\">"
  ++ escapeHtml (jsOr m.route "")
  ++ "</div>\n          <div style=\"margin-top:8px;display:flex;gap:6px;flex-wrap:wrap\">\n            <a href=\"/listings?route="
  ++ encodeURIComponent (jsOr m.route "")
  ++ "\"\n               style=\"font-size:12px;padding:6px 10px;border:1px solid #e2e8f0;border-radius:10px;text-decoration:none;\">\n               Ver lugares\n            </a>\n            "
  ++ (if truthy m.maps_url then
        "<a href=\"" ++ m.maps_url.getD ""
        ++ "\" target=\"_blank\"\n               style=\"font-size:12px;padding:6px 10px;border:1px solid #e2e8f0;border-radius:10px;text-decoration:none;\">\n               Maps\n            </a>"
      else "")
  ++ "\n            "
  ++ (if truthy m.phone_whatsapp then
        "<a href=\"https://wa.me/" ++ replaceFirst "+" "" (m.phone_whatsapp.getD "")
        ++ "\" target=\"_blank\"\n               style=\"font-size:12px;padding:6px 10px;border:1px solid #e2e8f0;border-radius:10px;text-decoration:none;\">\n               WhatsApp\n            </a>"
      else "")
  ++ "\n          </div>\n        </div>\n      "

/-- Modelled from the claim wording of C1: the popup with *every*
descriptor-supplied text field (name, route, external map URL, phone
number) passed through `escapeHtml` before concatenation.  To be
compared with `popupHtml`, which transcribes the source. -/
def popupAllEscaped (m : MarkerDesc) : String :=
  "\n        <div style=\"min-width:220px\">\n          <div style=\"font-weight:700\">"
  ++ escapeHtml (jsOr m.name "Negocio")
  ++ "</div>\n          <div style=\"font-size:12px;color:#64748b\">"
  ++ escapeHtml (jsOr m.route "")
  ++ "</div>\n          <div style=\"margin-top:8px;display:flex;gap:6px;flex-wrap:wrap\">\n            <a href=\"/listings?route="
  ++ encodeURIComponent (jsOr m.route "")
  ++ "\"\n               style=\"font-size:12px;padding:6px 10px;border:1px solid #e2e8f0;border-radius:10px;text-decoration:none;\">\n               Ver lugares\n            </a>\n            "
  ++ (if truthy m.maps_url then
        "<a href=\"" ++ escapeHtml (m.maps_url.getD "")
        ++ "\" target=\"_blank\"\n               style=\"font-size:12px;padding:6px 10px;border:1px solid #e2e8f0;border-radius:10px;text-decoration:none;\">\n               Maps\n            </a>"
      else "")
  ++ "\n            "
  ++ (if truthy m.phone_whatsapp then
        "<a href=\"https://wa.me/" ++ escapeHtml (replaceFirst "+" "" (m.phone_whatsapp.getD ""))
        ++ "\" target=\"_blank\"\n               style=\"font-size:12px;padding:6px 10px;border:1px solid #e2e8f0;border-radius:10px;text-decoration:none;\">\n               WhatsApp\n            </a>"
      else "")
  ++ "\n          </div>\n        </div>\n      "

/-- Substring test on character lists. -/
def listContains (needle hay : List Char) : Bool :=
  match hay with
  | [] => pfxOf needle []
  | _ :: t => pfxOf needle hay || listContains needle t

/-- A marker descriptor whose external map URL holds markup characters. -/
def mCexEscape : MarkerDesc :=
  { lat := JSVal.num (JSNumber.finite 0), lng := JSVal.num (JSNumber.finite 0),
    maps_url := some "<x>" }

set_option maxRecDepth 100000 in
/-- Claim C1, counterexample: the popup built by the code is not the popup
with every descriptor-supplied text escaped: a `maps_url` of `"<x>"` is
concatenated into the markup verbatim (raw `<x>` appears in the popup),
while escaping it would have removed the raw `<`. -/
theorem popup_escapes_all_claim_cex :
    popupHtml mCexEscape ≠ popupAllEscaped mCexEscape ∧
    listContains "<x>".data (popupHtml mCexEscape).data = true ∧
    listContains "<x>".data (escapeHtml "<x>").data = false := by decide

/-- Claim C1, amended: in `initPublicMap` the business name and the route
are passed through the escaping function before concatenation into the
popup (on any input), and the route is percent-encoded in the listings
link; but the external map URL and the phone number are concatenated
without escaping, so the code agrees with the all-escaped popup exactly
when those two optional fields are absent (falsy).  Numeric coordinate
fields never enter the popup text and are never escaped. -/
theorem popup_escaping_amended (m : MarkerDesc)
    (h1 : truthy m.maps_url = false) (h2 : truthy m.phone_whatsapp = false) :
    popupHtml m = popupAllEscaped m := by
  simp [popupHtml, popupAllEscaped, h1, h2]

/-- A descriptor carrying markup in its name and route but no optional
links. -/
def mWitEscape : MarkerDesc :=
  { lat := JSVal.num (JSNumber.finite 0), lng := JSVal.num (JSNumber.finite 0),
    name := some "<script>", route := some "a&b" }

/-- Witness for `popup_escaping_amended` at a descriptor with markup in
name and route and with both optional link fields absent. -/
theorem popup_escaping_amended_witness :
    truthy mWitEscape.maps_url = false ∧
    truthy mWitEscape.phone_whatsapp = false ∧
    popupHtml mWitEscape = popupAllEscaped mWitEscape :=
  ⟨rfl, rfl, popup_escaping_amended mWitEscape rfl rfl⟩

lemma listContains_nil_needle (h : List Char) : listContains [] h = true := by
  cases h <;> simp [listContains, pfxOf]

lemma listContains_prefix (n suf : List Char) :
    listContains n (n ++ suf) = true := by
  cases n with
  | nil => simpa using listContains_nil_needle suf
  | cons a t => simp [listContains, pfxOf, pfxOf_self_append]

lemma listContains_append_right (x s n : List Char)
    (h : listContains n s = true) : listContains n (x ++ s) = true := by
  induction x with
  | nil => simpa
  | cons a t ih => simp [listContains, ih]

/-- Claim-side vocabulary: leading part of the popup (container, escaped
name, escaped route, opening of the listings anchor). -/
def popupPartHead (m : MarkerDesc) : String :=
  "\n        <div style=\"min-width:220px\">\n          <div style=\"font-weight:700\">"
  ++ escapeHtml (jsOr m.name "Negocio")
  ++ "</div>\n          <div style=\"font-size:12px;color:#64748b\">"
  ++ escapeHtml (jsOr m.route "")
  ++ "</div>\n          <div style=\"margin-top:8px;display:flex;gap:6px;flex-wrap:wrap\">\n            <a href=\""

/-- Claim-side vocabulary: the fixed markup between the listings link
and the optional external-maps anchor. -/
def popupPartAfterRoute : String :=
  "\"\n               style=\"font-size:12px;padding:6px 10px;border:1px solid #e2e8f0;border-radius:10px;text-decoration:none;\">\n               Ver lugares\n            </a>\n            "

/-- Claim-side vocabulary: the external-maps anchor for a given URL. -/
def mapsAnchor (url : String) : String :=
  "<a href=\"" ++ url
  ++ "\" target=\"_blank\"\n               style=\"font-size:12px;padding:6px 10px;border:1px solid #e2e8f0;border-radius:10px;text-decoration:none;\">\n               Maps\n            </a>"

/-- Claim-side vocabulary: the WhatsApp anchor for a given (already
plus-stripped) phone number. -/
def waAnchor (p : String) : String :=
  "<a href=\"https://wa.me/" ++ p
  ++ "\" target=\"_blank\"\n               style=\"font-size:12px;padding:6px 10px;border:1px solid #e2e8f0;border-radius:10px;text-decoration:none;\">\n               WhatsApp\n            </a>"

/-- Claim-side vocabulary: the closing markup of the popup. -/
def popupPartTail : String := "\n          </div>\n        </div>\n      "

lemma popup_decomp (m : MarkerDesc) :
    popupHtml m =
      popupPartHead m ++ ("/listings?route=" ++ encodeURIComponent (jsOr m.route ""))
      ++ popupPartAfterRoute
      ++ (if truthy m.maps_url then mapsAnchor (m.maps_url.getD "") else "")
      ++ "\n            "
      ++ (if truthy m.phone_whatsapp then
            waAnchor (replaceFirst "+" "" (m.phone_whatsapp.getD "")) else "")
      ++ popupPartTail := by
  simp only [popupHtml]
  rw [show ("</div>\n          <div style=\"margin-top:8px;display:flex;gap:6px;flex-wrap:wrap\">\n            <a href=\"/listings?route=" : String)
        = "</div>\n          <div style=\"margin-top:8px;display:flex;gap:6px;flex-wrap:wrap\">\n            <a href=\"" ++ "/listings?route=" from rfl]
  simp only [popupPartHead, popupPartAfterRoute, popupPartTail, mapsAnchor,
    waAnchor, String.append_assoc]

/-- The spec wording of C7: strip one leading `+` from the phone number,
leaving any other `+` in place. -/
def stripLeadingPlus (s : String) : String :=
  match s.data with
  | c :: t => if c = '+' then ⟨t⟩ else s
  | [] => s

/-- A marker descriptor whose phone number has an interior `+`. -/
def mCexPlus : MarkerDesc :=
  { lat := JSVal.num (JSNumber.finite 0), lng := JSVal.num (JSNumber.finite 0),
    phone_whatsapp := some "12+34" }

set_option maxRecDepth 200000 in
/-- Claim C7, counterexample: for the phone number `"12+34"` (no leading
`+`), the claim's messaging link would reference `12+34`, but the code
removes the first `+` anywhere (`.replace("+","")`), so the popup
contains `https://wa.me/1234` and not `https://wa.me/12+34`. -/
theorem popup_links_claim_cex :
    stripLeadingPlus "12+34" = "12+34" ∧
    listContains ("https://wa.me/" ++ stripLeadingPlus "12+34").data
      (popupHtml mCexPlus).data = false ∧
    listContains "https://wa.me/1234".data (popupHtml mCexPlus).data = true := by
  decide

/-- Claim C7, amended: every popup contains the listings-page link
`/listings?route=` followed by the percent-encoded route; it consists of
the fixed markup with an external-maps anchor exactly when the
descriptor's `maps_url` is present (truthy) and a WhatsApp anchor
exactly when its `phone_whatsapp` is present (truthy), the latter
referencing the phone number with its *first* `+` (anywhere, not only a
leading one) removed. -/
theorem popup_links_amended (m : MarkerDesc) :
    listContains ("/listings?route=" ++ encodeURIComponent (jsOr m.route "")).data
      (popupHtml m).data = true ∧
    popupHtml m =
      popupPartHead m ++ ("/listings?route=" ++ encodeURIComponent (jsOr m.route ""))
      ++ popupPartAfterRoute
      ++ (if truthy m.maps_url then mapsAnchor (m.maps_url.getD "") else "")
      ++ "\n            "
      ++ (if truthy m.phone_whatsapp then
            waAnchor (replaceFirst "+" "" (m.phone_whatsapp.getD "")) else "")
      ++ popupPartTail := by
  refine ⟨?_, popup_decomp m⟩
  rw [popup_decomp m]
  simp only [String.data_append, List.append_assoc]
  apply listContains_append_right
  rw [← List.append_assoc]
  exact listContains_prefix _ _

/-- The skip test of `initPublicMap`'s marker loop:
`typeof m.lat === "number" && typeof m.lng === "number"`. -/
def validM (m : MarkerDesc) : Bool :=
  m.lat.isNum && m.lng.isNum

/-- The `[m.lat, m.lng]` pair pushed for a marker that passed `validM`. -/
def markerPos (m : MarkerDesc) : JSNumber × JSNumber :=
  (m.lat.toNum, m.lng.toNum)

/-- View commands issued against the mapping library: `setView`,
`fitBounds` on a list of points with per-side padding, and `fitBounds`
on a polyline's bounds with per-side padding. -/
inductive View : Type
  | setV (center : JSNumber × JSNumber) (zoom : ℚ)
  | fitPts (pts : List (JSNumber × JSNumber)) (padX padY : ℚ)
  | fitLine (pts : List (ℚ × ℚ)) (padX padY : ℚ)
deriving DecidableEq

/-- The inputs and environment of `initPublicMap`: the destructured
options (with their source defaults), whether the container element and
the `window.L` global exist, and two oracles for the mapping library's
behavior inside the path `try` block (`line.getBounds()` validity, and
whether anything in the block throws; a throw is caught and skips the
path fit). The path is a Lean list, so `Array.isArray(path)` is always
true in the model. -/
structure PublicOpts where
  mapElPresent : Bool
  leafletPresent : Bool
  markers : List MarkerDesc := []
  path : List (ℚ × ℚ) := []
  startLat : ℚ := -1.8312
  startLng : ℚ := -78.1834
  zoom : ℚ := 6
  pathBoundsValid : Bool := true
  pathFitThrows : Bool := false

/-- Observable result of `initPublicMap` when it runs: the ordered trace
of view commands, the markers placed (position and bound popup), and the
`bounds` array it accumulated. -/
structure PubMapState where
  viewOps : List View
  placed : List ((JSNumber × JSNumber) × String)
  boundsArr : List (JSNumber × JSNumber)
deriving DecidableEq

/-- The `bounds` array after the marker loop: one entry per descriptor
whose `lat` and `lng` both have number type. -/
def mkBounds (o : PublicOpts) : List (JSNumber × JSNumber) :=
  (o.markers.filter validM).map markerPos

/-- Function `initPublicMap` from `map.js` (lines 89-150): guard on container and
library, initial `setView` at the start coordinates/zoom, optional path
polyline fit (padding 30), one marker with popup per valid descriptor,
then `fitBounds`/`setView(...,14)` depending on how many bounds entries
were pushed. Returns `none` when the guard fails. -/
def initPublicMap (o : PublicOpts) : Option PubMapState :=
  if o.mapElPresent && o.leafletPresent then
    some
      { viewOps :=
          [View.setV (JSNumber.finite o.startLat, JSNumber.finite o.startLng) o.zoom]
          ++ (if 2 ≤ o.path.length ∧ o.pathBoundsValid = true ∧ o.pathFitThrows = false
              then [View.fitLine o.path 30 30] else [])
          ++ (if 2 ≤ (mkBounds o).length
              then [View.fitPts (mkBounds o) 30 30] else [])
          ++ (if (mkBounds o).length = 1
              then [View.setV ((mkBounds o).headD (JSNumber.nan, JSNumber.nan)) 14]
              else []),
        placed := (o.markers.filter validM).map (fun m => (markerPos m, popupHtml m)),
        boundsArr := mkBounds o }
  else none

/-- The view in effect after initialization: the last view command. -/
def finalView (st : PubMapState) : Option View :=
  st.viewOps.getLast?

/-- Claim C3: a marker descriptor whose latitude or longitude is not of
number type contributes nothing at all: `initPublicMap` on a marker list
containing it equals `initPublicMap` on the same options with that
descriptor removed, so it adds no marker and no bounds entry and leaves
the processing of the other descriptors unchanged. -/
theorem invalid_marker_skipped (o : PublicOpts) (pre post : List MarkerDesc)
    (m : MarkerDesc) (hmk : o.markers = pre ++ m :: post)
    (hinv : validM m = false) :
    initPublicMap o = initPublicMap { o with markers := pre ++ post } := by
  unfold initPublicMap mkBounds
  simp [hmk, List.filter_append, List.filter_cons, hinv]

/-- A descriptor with a string latitude (skipped) and a numeric one. -/
def mBadLat : MarkerDesc :=
  { lat := JSVal.str "x", lng := JSVal.num (JSNumber.finite 1) }

/-- A descriptor with numeric coordinates. -/
def mGood : MarkerDesc :=
  { lat := JSVal.num (JSNumber.finite 1), lng := JSVal.num (JSNumber.finite 2) }

/-- Options with one invalid and one valid descriptor. -/
def oSkip : PublicOpts :=
  { mapElPresent := true, leafletPresent := true, markers := [mBadLat, mGood] }

/-- Witness for `invalid_marker_skipped`: dropping the string-latitude
descriptor from a concrete marker list leaves the result unchanged. -/
theorem invalid_marker_skipped_witness :
    validM mBadLat = false ∧
    initPublicMap oSkip = initPublicMap { oSkip with markers := [mGood] } :=
  ⟨rfl, invalid_marker_skipped oSkip [] [mGood] mBadLat rfl rfl⟩

/-- Claim C9: the coordinate check is exactly the `typeof` test: any
descriptor whose `lat` and `lng` are of number type — `NaN` and the
infinities included — is kept, contributing its marker (with popup) and
its bounds entry in position, with the other valid descriptors around
it. -/
theorem typeof_number_kept (o : PublicOpts) (pre post : List MarkerDesc)
    (m : MarkerDesc)
    (hm : o.mapElPresent = true) (hl : o.leafletPresent = true)
    (hmk : o.markers = pre ++ m :: post)
    (h1 : m.lat.isNum = true) (h2 : m.lng.isNum = true) :
    ∃ st, initPublicMap o = some st ∧
      st.placed = (pre.filter validM).map (fun x => (markerPos x, popupHtml x))
        ++ (markerPos m, popupHtml m)
          :: (post.filter validM).map (fun x => (markerPos x, popupHtml x)) ∧
      st.boundsArr = (pre.filter validM).map markerPos
        ++ markerPos m :: (post.filter validM).map markerPos := by
  have hv : validM m = true := by simp [validM, h1, h2]
  unfold initPublicMap
  rw [if_pos (show (o.mapElPresent && o.leafletPresent) = true by simp [hm, hl])]
  refine ⟨_, rfl, ?_, ?_⟩
  · simp [hmk, List.filter_append, List.filter_cons, hv]
  · simp [mkBounds, hmk, List.filter_append, List.filter_cons, hv]

/-- A descriptor whose coordinates are `NaN` and `Infinity`. -/
def mNaN : MarkerDesc :=
  { lat := JSVal.num JSNumber.nan, lng := JSVal.num JSNumber.posInf }

/-- Options whose only descriptor has `NaN`/`Infinity` coordinates. -/
def oNaN : PublicOpts :=
  { mapElPresent := true, leafletPresent := true, markers := [mNaN] }

/-- Witness for `typeof_number_kept`: a `NaN`/`Infinity` descriptor is
not skipped — it yields the only marker and the only bounds entry. -/
theorem typeof_number_kept_witness :
    ∃ st, initPublicMap oNaN = some st ∧
      st.placed = [(markerPos mNaN, popupHtml mNaN)] ∧
      st.boundsArr = [(JSNumber.nan, JSNumber.posInf)] :=
  typeof_number_kept oNaN [] [] mNaN rfl rfl rfl rfl rfl

/-- Claim C4: after the marker loop, if two or more bounds entries were
pushed the final view command fits their combined bounds with padding 30
per side; if exactly one was pushed the final view centers on it at zoom
14; if none were pushed and no path was supplied, the trace is exactly
the initial `setView` at the start coordinates and zoom. -/
theorem final_view_cases (o : PublicOpts)
    (hm : o.mapElPresent = true) (hl : o.leafletPresent = true) :
    (2 ≤ (mkBounds o).length →
      (initPublicMap o).map finalView
        = some (some (View.fitPts (mkBounds o) 30 30))) ∧
    ((mkBounds o).length = 1 →
      (initPublicMap o).map finalView
        = some (some (View.setV ((mkBounds o).headD (JSNumber.nan, JSNumber.nan)) 14))) ∧
    ((mkBounds o).length = 0 → o.path = [] →
      (initPublicMap o).map PubMapState.viewOps
        = some [View.setV (JSNumber.finite o.startLat, JSNumber.finite o.startLng) o.zoom]) := by
  have hg : (o.mapElPresent && o.leafletPresent) = true := by simp [hm, hl]
  refine ⟨fun hb => ?_, fun hb => ?_, fun hb hp => ?_⟩
  · unfold initPublicMap
    rw [if_pos hg, if_pos hb, if_neg (show ¬ (mkBounds o).length = 1 by omega)]
    simp only [Option.map_some', finalView, List.append_nil]
    rw [List.getLast?_concat]
  · unfold initPublicMap
    rw [if_pos hg, if_neg (show ¬ 2 ≤ (mkBounds o).length by omega), if_pos hb]
    simp only [Option.map_some', finalView, List.append_nil]
    rw [List.getLast?_concat]
  · unfold initPublicMap
    rw [if_pos hg,
      if_neg (show ¬ (2 ≤ o.path.length ∧ o.pathBoundsValid = true ∧
        o.pathFitThrows = false) by simp [hp]),
      if_neg (show ¬ 2 ≤ (mkBounds o).length by omega),
      if_neg (show ¬ (mkBounds o).length = 1 by omega)]
    simp

/-- Witness for `final_view_cases`: with exactly one valid marker the
final view command centers on its bounds entry at zoom 14. -/
theorem final_view_cases_witness :
    (mkBounds oNaN).length = 1 ∧
    (initPublicMap oNaN).map finalView
      = some (some (View.setV ((mkBounds oNaN).headD (JSNumber.nan, JSNumber.nan)) 14)) :=
  ⟨rfl, (final_view_cases oNaN rfl rfl).2.1 rfl⟩

/-- Claim C10: with a drawable path (length at least 2, valid bounds, no
throw) and at least two valid markers, the trace is exactly initial
`setView`, then the path fit, then the marker fit — so the view in
effect at the end is the markers' combined-bounds fit, not the path's. -/
theorem path_fit_then_marker_fit (o : PublicOpts)
    (hm : o.mapElPresent = true) (hl : o.leafletPresent = true)
    (hp : 2 ≤ o.path.length) (hv : o.pathBoundsValid = true)
    (ht : o.pathFitThrows = false) (hb : 2 ≤ (mkBounds o).length) :
    (initPublicMap o).map PubMapState.viewOps
      = some [View.setV (JSNumber.finite o.startLat, JSNumber.finite o.startLng) o.zoom,
              View.fitLine o.path 30 30, View.fitPts (mkBounds o) 30 30] ∧
    (initPublicMap o).map finalView
      = some (some (View.fitPts (mkBounds o) 30 30)) := by
  have hg : (o.mapElPresent && o.leafletPresent) = true := by simp [hm, hl]
  refine ⟨?_, ?_⟩
  · unfold initPublicMap
    rw [if_pos hg, if_pos ⟨hp, hv, ht⟩, if_pos hb,
      if_neg (show ¬ (mkBounds o).length = 1 by omega)]
    simp
  · unfold initPublicMap
    rw [if_pos hg, if_pos ⟨hp, hv, ht⟩, if_pos hb,
      if_neg (show ¬ (mkBounds o).length = 1 by omega)]
    simp only [Option.map_some', finalView, List.append_nil]
    rw [List.getLast?_concat]

/-- Options with a two-point path and two valid markers. -/
def oPath : PublicOpts :=
  { mapElPresent := true, leafletPresent := true,
    markers := [mGood, mNaN], path := [(0, 0), (1, 1)] }

/-- Witness for `path_fit_then_marker_fit` on a concrete two-point path
and two valid markers. -/
theorem path_fit_then_marker_fit_witness :
    (initPublicMap oPath).map PubMapState.viewOps
      = some [View.setV (JSNumber.finite oPath.startLat, JSNumber.finite oPath.startLng) oPath.zoom,
              View.fitLine oPath.path 30 30, View.fitPts (mkBounds oPath) 30 30] ∧
    (initPublicMap oPath).map finalView
      = some (some (View.fitPts (mkBounds oPath) 30 30)) :=
  path_fit_then_marker_fit oPath rfl rfl (by decide) rfl rfl (by decide)

/-- Six leading-zero-padded decimal digits (the fractional part of
`toFixed(6)`). -/
def padZeros6 (k : ℕ) : String :=
  ⟨List.replicate (6 - (toString k).length) '0'⟩ ++ toString k

/-- JavaScript `Number.prototype.toFixed(6)`: sign handled separately, then the
magnitude rounded to the nearest multiple of `10⁻⁶` (ties away from
zero) and printed with exactly six fractional digits.  The rounded
magnitude `⌊|q| * 10⁶ + 1/2⌋` is computed directly on the reduced
numerator and denominator so that it evaluates by kernel reduction. -/
def toFixed6 (q : ℚ) : String :=
  let n : ℕ := (q.num.natAbs * 1000000 * 2 + q.den) / (2 * q.den)
  (if q.num < 0 then "-" else "") ++ toString (n / 1000000) ++ "."
    ++ padZeros6 (n % 1000000)

lemma ratLatDefault : (-1.8312 : ℚ) = mkRat (-2289) 1250 := by
  rw [Rat.mkRat_eq_div]
  norm_num

lemma ratLngDefault : (-78.1834 : ℚ) = mkRat (-390917) 5000 := by
  rw [Rat.mkRat_eq_div]
  norm_num

lemma toFixed6_latDefault : toFixed6 (-1.8312) = "-1.831200" := by
  rw [ratLatDefault]
  decide

lemma toFixed6_lngDefault : toFixed6 (-78.1834) = "-78.183400" := by
  rw [ratLngDefault]
  decide

/-- Inputs and environment of `initPickerMap`: destructured options with
their source defaults, plus existence flags for the container, the
library global, and the two bound input elements. -/
structure PickerOpts where
  mapElPresent : Bool
  leafletPresent : Bool
  latInputPresent : Bool := true
  lngInputPresent : Bool := true
  startLat : ℚ := -1.8312
  startLng : ℚ := -78.1834
  zoom : ℚ := 6

/-- Observable state of the picker: the two input field values (`none`
when the element is absent and has never been written), the draggable
marker's position, and the map's center and zoom. -/
structure PickerState where
  latField : Option String
  lngField : Option String
  markerPos : ℚ × ℚ
  center : ℚ × ℚ
  zoom : ℚ
deriving DecidableEq

/-- Function `setLatLng` from `initPickerMap`: write both input fields (when the
elements exist) with the six-decimal rendering, move the marker, and pan
the view to the position. -/
def setLatLng (o : PickerOpts) (s : PickerState) (lat lng : ℚ) : PickerState :=
  { latField := if o.latInputPresent then some (toFixed6 lat) else s.latField,
    lngField := if o.lngInputPresent then some (toFixed6 lng) else s.lngField,
    markerPos := (lat, lng),
    center := (lat, lng),
    zoom := s.zoom }

/-- Function `initPickerMap` from `map.js` (lines 45-87): guard on container and
library, then map at the start coordinates/zoom, one draggable marker
there, and an immediate `setLatLng(startLat, startLng)`. -/
def pickerInit (o : PickerOpts) : Option PickerState :=
  if o.mapElPresent && o.leafletPresent then
    some (setLatLng o
      { latField := none, lngField := none,
        markerPos := (o.startLat, o.startLng),
        center := (o.startLat, o.startLng), zoom := o.zoom }
      o.startLat o.startLng)
  else none

/-- The two events the picker subscribes to: a map click at a position,
and the end of a marker drag (carrying the marker's resulting
position). -/
inductive PickerEvent : Type
  | click (lat lng : ℚ)
  | dragEnd (lat lng : ℚ)

/-- Both handlers call `setLatLng` with the event's position. -/
def pickerStep (o : PickerOpts) (s : PickerState) : PickerEvent → PickerState
  | .click lat lng => setLatLng o s lat lng
  | .dragEnd lat lng => setLatLng o s lat lng

/-- The picker state after initialization followed by a sequence of
events (`none` when the guard failed and nothing was created). -/
def pickerRun (o : PickerOpts) (es : List PickerEvent) : Option PickerState :=
  (pickerInit o).map (fun s0 => es.foldl (pickerStep o) s0)

lemma foldl_sync (o : PickerOpts) (hla : o.latInputPresent = true)
    (hln : o.lngInputPresent = true) (es : List PickerEvent) (s : PickerState)
    (hs : s.latField = some (toFixed6 s.markerPos.1) ∧
          s.lngField = some (toFixed6 s.markerPos.2) ∧ s.center = s.markerPos) :
    (es.foldl (pickerStep o) s).latField
        = some (toFixed6 (es.foldl (pickerStep o) s).markerPos.1) ∧
    (es.foldl (pickerStep o) s).lngField
        = some (toFixed6 (es.foldl (pickerStep o) s).markerPos.2) ∧
    (es.foldl (pickerStep o) s).center = (es.foldl (pickerStep o) s).markerPos := by
  induction es generalizing s with
  | nil => exact hs
  | cons e t ih =>
    simp only [List.foldl_cons]
    apply ih
    cases e <;> simp [pickerStep, setLatLng, hla, hln]

/-- Claim C6: with the container, library and both input elements present,
(1) every reachable picker state keeps the two fields equal to the
marker position rendered to six decimals and the view centered on the
marker; (2) immediately after initialization with the default start
coordinates the fields hold `"-1.831200"` and `"-78.183400"`; (3)/(4)
after any map click or marker drag end at `(lat, lng)` the fields hold
the six-decimal rendering of the new position, the marker is moved
there, and the view is panned there. -/
theorem picker_sync (o : PickerOpts)
    (hm : o.mapElPresent = true) (hl : o.leafletPresent = true)
    (hla : o.latInputPresent = true) (hln : o.lngInputPresent = true) :
    (∀ es s, pickerRun o es = some s →
      s.latField = some (toFixed6 s.markerPos.1) ∧
      s.lngField = some (toFixed6 s.markerPos.2) ∧
      s.center = s.markerPos) ∧
    (o.startLat = -1.8312 → o.startLng = -78.1834 →
      ∃ s, pickerRun o [] = some s ∧
        s.latField = some "-1.831200" ∧ s.lngField = some "-78.183400") ∧
    (∀ es lat lng s,
      pickerRun o (es ++ [PickerEvent.click lat lng]) = some s →
      s.latField = some (toFixed6 lat) ∧ s.lngField = some (toFixed6 lng) ∧
      s.markerPos = (lat, lng) ∧ s.center = (lat, lng)) ∧
    (∀ es lat lng s,
      pickerRun o (es ++ [PickerEvent.dragEnd lat lng]) = some s →
      s.latField = some (toFixed6 lat) ∧ s.lngField = some (toFixed6 lng) ∧
      s.markerPos = (lat, lng) ∧ s.center = (lat, lng)) := by
  have hg : (o.mapElPresent && o.leafletPresent) = true := by simp [hm, hl]
  refine ⟨?_, ?_, ?_, ?_⟩
  · intro es s h
    unfold pickerRun pickerInit at h
    rw [if_pos hg] at h
    simp only [Option.map_some', Option.some.injEq] at h
    subst h
    exact foldl_sync o hla hln es _ (by simp [setLatLng, hla, hln])
  · intro h1 h2
    have hrun : pickerRun o [] = some (setLatLng o
        { latField := none, lngField := none,
          markerPos := (o.startLat, o.startLng),
          center := (o.startLat, o.startLng), zoom := o.zoom }
        o.startLat o.startLng) := by
      unfold pickerRun pickerInit
      rw [if_pos hg]
      rfl
    refine ⟨_, hrun, ?_, ?_⟩
    · simp only [setLatLng, hla, if_pos, h1]
      rw [toFixed6_latDefault]
    · simp only [setLatLng, hln, if_pos, h2]
      rw [toFixed6_lngDefault]
  · intro es lat lng s h
    unfold pickerRun pickerInit at h
    rw [if_pos hg] at h
    simp only [Option.map_some', Option.some.injEq] at h
    subst h
    simp [List.foldl_append, pickerStep, setLatLng, hla, hln]
  · intro es lat lng s h
    unfold pickerRun pickerInit at h
    rw [if_pos hg] at h
    simp only [Option.map_some', Option.some.injEq] at h
    subst h
    simp [List.foldl_append, pickerStep, setLatLng, hla, hln]

/-- Picker options with everything present and the source defaults. -/
def oPicker : PickerOpts := { mapElPresent := true, leafletPresent := true }

/-- Witness for `picker_sync`: with the defaults the fields initialize
to `"-1.831200"` / `"-78.183400"`, and a click at `(-1, -78)` sets them
to `"-1.000000"` / `"-78.000000"`. -/
theorem picker_sync_witness :
    (∃ s, pickerRun oPicker [] = some s ∧
      s.latField = some "-1.831200" ∧ s.lngField = some "-78.183400") ∧
    (∀ s, pickerRun oPicker [PickerEvent.click (-1) (-78)] = some s →
      s.latField = some "-1.000000" ∧ s.lngField = some "-78.000000") := by
  refine ⟨(picker_sync oPicker rfl rfl rfl rfl).2.1 rfl rfl, ?_⟩
  intro s h
  have hc := (picker_sync oPicker rfl rfl rfl rfl).2.2.1 [] (-1) (-78) s h
  exact ⟨by rw [hc.1]; decide, by rw [hc.2.1]; decide⟩

/-- Claim C5: when the container element is missing or the library global
is unavailable, both initializers return `none`: no map instance, no
state, no other effect (both functions are total, so no exception is
possible in the model). -/
theorem guard_noop (po : PickerOpts) (pu : PublicOpts) :
    ((po.mapElPresent = false ∨ po.leafletPresent = false) →
      pickerInit po = none) ∧
    ((pu.mapElPresent = false ∨ pu.leafletPresent = false) →
      initPublicMap pu = none) := by
  constructor <;> rintro (h | h) <;> simp [pickerInit, initPublicMap, h]

/-- Picker options with a missing container. -/
def poMissing : PickerOpts := { mapElPresent := false, leafletPresent := true }

/-- Public-map options with a missing container. -/
def puMissing : PublicOpts := { mapElPresent := false, leafletPresent := true }

/-- Witness for `guard_noop` at concrete missing-container options. -/
theorem guard_noop_witness :
    pickerInit poMissing = none ∧ initPublicMap puMissing = none :=
  ⟨(guard_noop poMissing puMissing).1 (Or.inl rfl),
   (guard_noop poMissing puMissing).2 (Or.inl rfl)⟩

/-- The state of the `successBox` element at the time `autoHide` runs:
whether the element exists and whether it already has the `hidden`
class. -/
structure DomDoc where
  successPresent : Bool
  successHidden : Bool
deriving DecidableEq

/-- The single delayed action `autoHide` can schedule: add the `hidden`
class to the box. -/
inductive HideAction : Type
  | hideBox
deriving DecidableEq

/-- Function `autoHide` from `app.js` (lines 27-36): no element or already hidden
means no timer; otherwise one `setTimeout` for `ms` units whose callback
adds the `hidden` class. The returned list is the set of timers
scheduled by the call. -/
def autoHide (d : DomDoc) (ms : ℕ) : List (ℕ × HideAction) :=
  if d.successPresent = false then []
  else if d.successHidden = true then []
  else [(ms, HideAction.hideBox)]

/-- The page-load call `autoHide("successBox", 8000)`. -/
def pageLoadTimers (d : DomDoc) : List (ℕ × HideAction) :=
  autoHide d 8000

/-- Effect of a fired timer callback on the document. -/
def runHide : HideAction → DomDoc → DomDoc
  | .hideBox, d => { d with successHidden := true }

/-- Modelled `setTimeout` semantics: a timer may fire only once its delay has
elapsed. -/
def timerCanFire (tmr : ℕ × HideAction) (now : ℕ) : Bool :=
  tmr.1 ≤ now

/-- Claim C8: the page-load auto-hide schedules nothing when the success
element is absent or already hidden; otherwise it schedules exactly one
timer, with delay exactly 8000, which cannot fire before 8000 time units
have elapsed and whose (one-shot) action hides the element. At most one
timer exists per page load. -/
theorem autoHide_contract (d : DomDoc) :
    (d.successPresent = false ∨ d.successHidden = true →
      pageLoadTimers d = []) ∧
    (d.successPresent = true → d.successHidden = false →
      pageLoadTimers d = [(8000, HideAction.hideBox)]) ∧
    (pageLoadTimers d).length ≤ 1 ∧
    (∀ tmr ∈ pageLoadTimers d, tmr.1 = 8000 ∧
      (∀ now, now < 8000 → timerCanFire tmr now = false) ∧
      runHide tmr.2 d = { d with successHidden := true }) := by
  refine ⟨fun h => ?_, fun hp hh => ?_, ?_, fun tmr htm => ?_⟩
  · rcases h with h | h <;> simp [pageLoadTimers, autoHide, h]
  · simp [pageLoadTimers, autoHide, hp, hh]
  · rcases d with ⟨p, hd⟩
    cases p <;> cases hd <;> simp [pageLoadTimers, autoHide]
  · have he : pageLoadTimers d = [] ∨
        pageLoadTimers d = [(8000, HideAction.hideBox)] := by
      rcases d with ⟨p, hd⟩
      cases p <;> cases hd <;> simp [pageLoadTimers, autoHide]
    rcases he with he | he
    · rw [he] at htm
      exact absurd htm (by simp)
    · rw [he] at htm
      simp only [List.mem_singleton] at htm
      subst htm
      refine ⟨rfl, fun now hn => ?_, rfl⟩
      simp only [timerCanFire, decide_eq_false_iff_not]
      omega

/-- A visible success box. -/
def dVisible : DomDoc := { successPresent := true, successHidden := false }

/-- An already-hidden success box. -/
def dHidden : DomDoc := { successPresent := true, successHidden := true }

/-- Witness for `autoHide_contract`: a visible box yields exactly the
one 8000-unit timer; an already-hidden box yields none. -/
theorem autoHide_contract_witness :
    pageLoadTimers dVisible = [(8000, HideAction.hideBox)] ∧
    pageLoadTimers dHidden = [] :=
  ⟨(autoHide_contract dVisible).2.1 rfl rfl,
   (autoHide_contract dHidden).1 (Or.inr rfl)⟩
